import Mathlib

/-!
Shallow embedding of the CarSeer frontend logic.

The embedding covers:
  - the depreciation projection of `PredictionChart.tsx` (the `chartData`
    array builder, the conditional chart series, and the factors fallback);
  - the form logic of `CarPredictionForm.tsx` (the `handleChange` cascade,
    the year-list generation effect, the model-name normalisation inside
    `fetchModels`, and the error branches of the three network calls).

JavaScript numbers are modelled as rationals; optional object fields are
modelled with `Option`.  JavaScript truthiness tests on numbers are modelled
as a comparison with zero, and truthiness tests on strings as a comparison
with the empty string; an object-valued field is always truthy when present,
which is modelled by `Option.isSome` / `Option.map`.
-/

/-- The `price_range` field of the `PredictionData` payload. -/
structure PriceRange where
  low : ℚ
  high : ℚ
deriving DecidableEq, Repr

/-- The `factors` field of the `PredictionData` payload. -/
structure Factors where
  base_value : ℚ
  trim_multiplier : ℚ
  condition_multiplier : ℚ
  mileage_multiplier : ℚ
deriving DecidableEq, Repr

/-- The `PredictionData` interface of `PredictionChart.tsx`: the valuation
result returned by the backend.  Fields marked with `?` in the TypeScript
interface are wrapped in `Option`. -/
structure PredictionData where
  predicted_value : ℚ
  mean_value : Option ℚ
  price_range : Option PriceRange
  category : Option String
  factors : Option Factors
  confidence : Option String
  year : ℤ
deriving DecidableEq, Repr

/-- One element of the `chartData` array of `PredictionChart.tsx`. -/
structure ChartPoint where
  year : ℤ
  predictedValue : ℚ
  meanValue : Option ℚ
  lowRange : Option ℚ
  highRange : Option ℚ
deriving DecidableEq, Repr

/-- The body of the `Array.from` callback building `chartData`:
`depreciation = Math.pow(0.85, yearOffset)`, then each series is the base
field times the shared depreciation factor.  The test `data.mean_value ?`
is JavaScript numeric truthiness, so a mean of `0` yields `undefined`;
the test `data.price_range ?` is object truthiness, true whenever the
field is present. -/
def chartPoint (currentYear : ℤ) (d : PredictionData) (yearOffset : ℕ) : ChartPoint :=
  let depreciation : ℚ := (85 / 100 : ℚ) ^ yearOffset
  { year := currentYear + yearOffset
    predictedValue := d.predicted_value * depreciation
    meanValue :=
      match d.mean_value with
      | some m => if m = 0 then none else some (m * depreciation)
      | none => none
    lowRange := d.price_range.map (fun pr => pr.low * depreciation)
    highRange := d.price_range.map (fun pr => pr.high * depreciation) }

/-- The `chartData` array: `Array.from(\x7b length: 10 \x7d, (_, index) => ...)`. -/
def chartData (currentYear : ℤ) (d : PredictionData) : List ChartPoint :=
  (List.range 10).map (chartPoint currentYear d)

/-- Whether the Market Average line is emitted by the renderer: the JSX guard
`data.mean_value && <Line ... />` uses numeric truthiness. -/
def meanLineShown (d : PredictionData) : Bool :=
  match d.mean_value with
  | some m => decide (m ≠ 0)
  | none => false

/-- Whether the Minimum/Maximum Range lines are emitted by the renderer: the
JSX guard `data.price_range && ...` is object truthiness. -/
def rangeLinesShown (d : PredictionData) : Bool :=
  d.price_range.isSome

/-- The fallback `data.factors || \x7b base_value: 0, ... \x7d` used by the
breakdown display. -/
def factorsOf (d : PredictionData) : Factors :=
  d.factors.getD { base_value := 0, trim_multiplier := 1,
                   condition_multiplier := 1, mileage_multiplier := 1 }

/-- The percentage delta shown for a multiplier in the breakdown:
`((m - 1) * 100).toFixed(1)`, modelled numerically. -/
def percentDelta (m : ℚ) : ℚ :=
  (m - 1) * 100

/-- The `formData` state of `CarPredictionForm.tsx`.  The `year` field is a
number in the source and is modelled as an integer. -/
structure FormState where
  make : String
  model : String
  trim : String
  year : ℤ
  mileage : String
  condition : String
  zip_code : String
deriving DecidableEq, Repr

/-- One `handleChange` event: which form field changed and its new value. -/
inductive FieldChange where
  | setMake (v : String)
  | setModel (v : String)
  | setTrim (v : String)
  | setYear (v : ℤ)
  | setMileage (v : String)
  | setCondition (v : String)
  | setZip (v : String)
deriving DecidableEq, Repr

/-- The `handleChange` handler: first the computed-key assignment
`\x7b ...prev, [name]: value \x7d`, then the dependent-field resets — a make
change clears model and trim and sets year to `new Date().getFullYear()`;
a model change clears trim and sets year likewise. -/
def handleChange (currentYear : ℤ) (st : FormState) (c : FieldChange) : FormState :=
  let assigned :=
    match c with
    | .setMake v => { st with make := v }
    | .setModel v => { st with model := v }
    | .setTrim v => { st with trim := v }
    | .setYear v => { st with year := v }
    | .setMileage v => { st with mileage := v }
    | .setCondition v => { st with condition := v }
    | .setZip v => { st with zip_code := v }
  match c with
  | .setMake _ => { assigned with model := "", trim := "", year := currentYear }
  | .setModel _ => { assigned with trim := "", year := currentYear }
  | _ => assigned

/-- The year-generation effect body for a selected model:
`Array.from(\x7b length: 30 \x7d, (_, i) => (\x7b year: currentYear - i \x7d))`
followed by `.sort((a, b) => b.year - a.year)` (descending).  The JavaScript
sort with this comparator is modelled as an insertion sort by `≥`. -/
def yearsData (currentYear : ℤ) : List ℤ :=
  List.insertionSort (fun a b : ℤ => b ≤ a)
    ((List.range 30).map (fun i : ℕ => currentYear - (i : ℤ)))

/-- One record of the NHTSA `Results` array consumed by `fetchModels`. -/
structure RawModel where
  Model_Name : String
  Model_ID : ℤ
  Make_ID : ℤ
deriving DecidableEq, Repr

/-- The `CarModel` interface of `CarPredictionForm.tsx`. -/
structure CarModel where
  id : ℤ
  name : String
  make_id : ℤ
deriving DecidableEq, Repr

/-- Model of the JavaScript `String.prototype.trim`: strip whitespace from
both ends. -/
def jsTrim (s : String) : String :=
  ⟨(s.data.dropWhile Char.isWhitespace).reverse.dropWhile Char.isWhitespace |>.reverse⟩

/-- Model of the JavaScript `String.prototype.toLowerCase` on ASCII data. -/
def jsToLower (s : String) : String :=
  ⟨s.data.map Char.toLower⟩

/-- Model of the JavaScript `s.startsWith(p)` test. -/
def jsStartsWith (s pre : String) : Bool :=
  pre.data.isPrefixOf s.data

/-- Model of the JavaScript `s.substring(n)`: drop the first `n` characters. -/
def jsSubstringFrom (n : ℕ) (s : String) : String :=
  ⟨s.data.drop n⟩

/-- The per-record mapping inside `fetchModels`: trim the raw model name,
strip one leading occurrence of the make name when present (case
insensitively), and trim again. -/
def normalizeModelName (make : String) (raw : String) : String :=
  let name0 := jsTrim raw
  if jsStartsWith (jsToLower name0) (jsToLower make) then
    jsTrim (jsSubstringFrom make.data.length name0)
  else
    name0

/-- The `fetchModels` response processing: map each record through
`normalizeModelName`, keep its ids, filter out records whose resulting name
is empty (string truthiness), and sort by name with `localeCompare`,
modelled as a lexicographic insertion sort on the name. -/
def processModels (make : String) (rs : List RawModel) : List CarModel :=
  List.insertionSort (fun a b : CarModel => a.name ≤ b.name)
    ((rs.map (fun r =>
        { id := r.Model_ID
          name := normalizeModelName make r.Model_Name
          make_id := r.Make_ID })).filter (fun m => m.name ≠ ""))

/-- The component state touched by the three network-call handlers. -/
structure ComponentState where
  form : FormState
  models : List CarModel
  trims : List String
  error : String
  prediction : Option PredictionData
deriving DecidableEq, Repr

/-- The static message set by the `fetchModels` catch branch. -/
def modelsErrorMsg : String := "Failed to load car models. Please try again."

/-- The static message set by the `fetchTrims` catch branch. -/
def trimsErrorMsg : String := "Failed to load trim options. Please try again."

/-- The static message set by the `handleSubmit` catch branch. -/
def predictErrorMsg : String := "Failed to get prediction. Please try again."

/-- Outcome of the `fetchModels` effect for the current make: the guard
`if (!formData.make)` clears the list without a request; a successful
response replaces the list with the processed models; the catch branch sets
the static error message and clears the list. -/
def fetchModelsOutcome (st : ComponentState) (make : String)
    (r : Except Unit (List RawModel)) : ComponentState :=
  if make = "" then
    { st with models := [] }
  else
    match r with
    | .ok rs => { st with models := processModels make rs }
    | .error _ => { st with error := modelsErrorMsg, models := [] }

/-- Outcome of the `fetchTrims` effect: the guard clears the list when make
or model is empty; a response whose `trims` field is not an array resets the
list; the catch branch sets the static error message and clears the list.
The payload is `some ts` when `response.data.trims` is an array `ts`. -/
def fetchTrimsOutcome (st : ComponentState) (make model : String)
    (r : Except Unit (Option (List String))) : ComponentState :=
  if make = "" ∨ model = "" then
    { st with trims := [] }
  else
    match r with
    | .ok (some ts) => { st with trims := ts }
    | .ok none => { st with trims := [] }
    | .error _ => { st with error := trimsErrorMsg, trims := [] }

/-- Outcome of `handleSubmit`: `setError('')` runs first; on success the
prediction is replaced by the response; the catch branch sets the static
error message and does not touch the prediction. -/
def handleSubmitOutcome (st : ComponentState)
    (r : Except Unit PredictionData) : ComponentState :=
  let st1 := { st with error := "" }
  match r with
  | .ok d => { st1 with prediction := some d }
  | .error _ => { st1 with error := predictErrorMsg }

/-! Concrete payloads used by witnesses and counterexamples. -/

/-- A fully populated valuation payload. -/
def dFull : PredictionData :=
  { predicted_value := 20000
    mean_value := some 19000
    price_range := some { low := 18000, high := 22000 }
    category := some "sedan"
    factors := some { base_value := 20000, trim_multiplier := 105 / 100,
                      condition_multiplier := 95 / 100, mileage_multiplier := 9 / 10 }
    confidence := some "high"
    year := 2020 }

/-- A payload whose mean is present but zero, and whose price range and
factors are absent. -/
def dMeanZero : PredictionData :=
  { predicted_value := 100
    mean_value := some 0
    price_range := none
    category := none
    factors := none
    confidence := none
    year := 2020 }

/-- A payload whose predicted value is zero. -/
def dZeroPv : PredictionData :=
  { predicted_value := 0
    mean_value := none
    price_range := none
    category := none
    factors := none
    confidence := none
    year := 2020 }

/-- A concrete prior form state. -/
def st0 : FormState :=
  { make := "Toyota", model := "Camry", trim := "LE", year := 2005,
    mileage := "42000", condition := "Good", zip_code := "94016" }

/-- A concrete prior component state. -/
def cst0 : ComponentState :=
  { form := st0, models := [{ id := 7, name := "Camry", make_id := 1 }],
    trims := ["LE", "XSE"], error := "", prediction := some dFull }

/-- The catalog response of the spec example for make Corolla. -/
def corollaResults : List RawModel :=
  [{ Model_Name := "Corolla Corolla LE", Model_ID := 1, Make_ID := 10 },
   { Model_Name := "Corolla", Model_ID := 2, Make_ID := 10 }]

instance : IsTotal CarModel (fun a b => a.name ≤ b.name) :=
  ⟨fun a b => le_total a.name b.name⟩

instance : IsTrans CarModel (fun a b => a.name ≤ b.name) :=
  ⟨fun _ _ _ h h2 => le_trans h h2⟩

/-- The mapped year list is already descending, so the sort leaves it
unchanged. -/
lemma yearsData_eq (c : ℤ) :
    yearsData c = (List.range 30).map (fun i : ℕ => c - (i : ℤ)) := by
  apply List.Sorted.insertionSort_eq
  rw [List.Sorted, List.pairwise_map]
  refine List.Pairwise.imp ?_ (List.pairwise_lt_range 30)
  intro a b h
  dsimp only
  omega

/-- C4: a change of the make field sets make to the new value and resets
model to empty, trim to empty, and year to the current calendar year, for
every prior form state. -/
theorem makeChange_resets_downstream (currentYear : ℤ) (st : FormState) (v : String) :
    (handleChange currentYear st (.setMake v)).make = v ∧
    (handleChange currentYear st (.setMake v)).model = "" ∧
    (handleChange currentYear st (.setMake v)).trim = "" ∧
    (handleChange currentYear st (.setMake v)).year = currentYear := by
  exact ⟨rfl, rfl, rfl, rfl⟩

/-- C3 counterexample: after a make change the year field equals the current
calendar year (2025 or 2024 depending on the clock), not a fixed empty or
zero value, so the claim that the year is reset to the empty value fails. -/
theorem yearReset_not_empty_cex :
    (handleChange 2025 st0 (.setMake "Honda")).year = 2025 ∧
    (handleChange 2024 st0 (.setMake "Honda")).year = 2024 ∧
    (handleChange 2025 st0 (.setMake "Honda")).year ≠ 0 := by
  decide

/-- C3 amended: a make change resets model and trim to empty and the year to
the current calendar year; a model change sets the model to the new value and
resets trim to empty and the year to the current calendar year. -/
theorem upstreamChange_resets (currentYear : ℤ) (st : FormState) (v : String) :
    ((handleChange currentYear st (.setMake v)).model = "" ∧
     (handleChange currentYear st (.setMake v)).trim = "" ∧
     (handleChange currentYear st (.setMake v)).year = currentYear) ∧
    ((handleChange currentYear st (.setModel v)).model = v ∧
     (handleChange currentYear st (.setModel v)).trim = "" ∧
     (handleChange currentYear st (.setModel v)).year = currentYear) := by
  exact ⟨⟨rfl, rfl, rfl⟩, ⟨rfl, rfl, rfl⟩⟩

/-- C5: the generated year list has exactly 30 entries, is strictly
descending (hence pairwise distinct), and starts at the current calendar
year; it is a pure local computation. -/
theorem yearsData_spec (currentYear : ℤ) :
    (yearsData currentYear).length = 30 ∧
    (yearsData currentYear).Pairwise (· > ·) ∧
    (yearsData currentYear).head? = some currentYear ∧
    (yearsData currentYear).Pairwise (· ≠ ·) := by
  have hp : (yearsData currentYear).Pairwise (· > ·) := by
    rw [yearsData_eq, List.pairwise_map]
    refine List.Pairwise.imp ?_ (List.pairwise_lt_range 30)
    intro a b h
    dsimp only
    omega
  refine ⟨?_, hp, ?_, hp.imp (fun h => ne_of_gt h)⟩
  · rw [yearsData_eq, List.length_map, List.length_range]
  · rw [yearsData_eq, List.range_succ_eq_map]
    simp

/-- C6: on a catalog fetch failure, a trim fetch failure, or a valuation
request failure, the static error message is set and the corresponding list
is reset to empty, while the stored valuation result is never touched by any
of the three failure branches. -/
theorem fetchFailures_spec (st : ComponentState) (make model : String)
    (hm : make ≠ "") (hmo : model ≠ "") :
    (fetchModelsOutcome st make (.error ())).error = modelsErrorMsg ∧
    (fetchModelsOutcome st make (.error ())).models = [] ∧
    (fetchModelsOutcome st make (.error ())).prediction = st.prediction ∧
    (fetchTrimsOutcome st make model (.error ())).error = trimsErrorMsg ∧
    (fetchTrimsOutcome st make model (.error ())).trims = [] ∧
    (fetchTrimsOutcome st make model (.error ())).prediction = st.prediction ∧
    (handleSubmitOutcome st (.error ())).error = predictErrorMsg ∧
    (handleSubmitOutcome st (.error ())).prediction = st.prediction := by
  simp [fetchModelsOutcome, fetchTrimsOutcome, handleSubmitOutcome, hm, hmo]

/-- C6 witness: the failure branches evaluated on a concrete component state
with a nonempty make and model. -/
theorem fetchFailures_witness :
    (fetchModelsOutcome cst0 "Toyota" (.error ())).error = modelsErrorMsg ∧
    (fetchModelsOutcome cst0 "Toyota" (.error ())).models = [] ∧
    (fetchModelsOutcome cst0 "Toyota" (.error ())).prediction = cst0.prediction ∧
    (fetchTrimsOutcome cst0 "Toyota" "Camry" (.error ())).error = trimsErrorMsg ∧
    (fetchTrimsOutcome cst0 "Toyota" "Camry" (.error ())).trims = [] ∧
    (fetchTrimsOutcome cst0 "Toyota" "Camry" (.error ())).prediction = cst0.prediction ∧
    (handleSubmitOutcome cst0 (.error ())).error = predictErrorMsg ∧
    (handleSubmitOutcome cst0 (.error ())).prediction = cst0.prediction :=
  fetchFailures_spec cst0 "Toyota" "Camry" (by decide) (by decide)

/-- C1 counterexample: with a present mean field equal to zero, the claim
says the chart point at offset 0 carries mean times the depreciation factor,
but the code produces an absent mean value. -/
theorem meanPresent_projection_cex :
    dMeanZero.mean_value = some 0 ∧
    ¬ ((chartData 2025 dMeanZero)[0]?.map (fun p => p.meanValue)
        = some (some ((0 : ℚ) * (85 / 100 : ℚ) ^ (0 : ℕ)))) := by
  constructor
  · rfl
  · decide

/-- C1 amended: for every offset below ten, the chart point carries year
label currentYear plus the offset and predicted value scaled by the shared
factor; a present and nonzero mean is scaled by the same factor, while a
present mean equal to zero is projected as absent; when the price range is
present its low and high bounds are both scaled by the same factor. -/
theorem chartPoint_spec (currentYear : ℤ) (d : PredictionData) (k : ℕ) (hk : k < 10) :
    (chartData currentYear d)[k]? = some (chartPoint currentYear d k) ∧
    (chartPoint currentYear d k).year = currentYear + k ∧
    (chartPoint currentYear d k).predictedValue
      = d.predicted_value * (85 / 100 : ℚ) ^ k ∧
    (∀ m : ℚ, d.mean_value = some m → m ≠ 0 →
      (chartPoint currentYear d k).meanValue = some (m * (85 / 100 : ℚ) ^ k)) ∧
    (d.mean_value = some 0 → (chartPoint currentYear d k).meanValue = none) ∧
    (∀ pr : PriceRange, d.price_range = some pr →
      (chartPoint currentYear d k).lowRange = some (pr.low * (85 / 100 : ℚ) ^ k) ∧
      (chartPoint currentYear d k).highRange = some (pr.high * (85 / 100 : ℚ) ^ k)) := by
  refine ⟨?_, rfl, rfl, ?_, ?_, ?_⟩
  · simp [chartData, List.getElem?_map, List.getElem?_range, hk]
  · intro m hm hm0
    simp [chartPoint, hm, hm0]
  · intro hm
    simp [chartPoint, hm]
  · intro pr hpr
    simp [chartPoint, hpr]

/-- C1 witness: the amended statement evaluated at offset 3 on a fully
populated payload. -/
theorem chartPoint_witness :
    (3 : ℕ) < 10 ∧
    ((chartData 2025 dFull)[3]? = some (chartPoint 2025 dFull 3) ∧
     (chartPoint 2025 dFull 3).year = 2025 + (3 : ℕ) ∧
     (chartPoint 2025 dFull 3).predictedValue
       = dFull.predicted_value * (85 / 100 : ℚ) ^ (3 : ℕ) ∧
     (∀ m : ℚ, dFull.mean_value = some m → m ≠ 0 →
       (chartPoint 2025 dFull 3).meanValue = some (m * (85 / 100 : ℚ) ^ (3 : ℕ))) ∧
     (dFull.mean_value = some 0 → (chartPoint 2025 dFull 3).meanValue = none) ∧
     (∀ pr : PriceRange, dFull.price_range = some pr →
       (chartPoint 2025 dFull 3).lowRange = some (pr.low * (85 / 100 : ℚ) ^ (3 : ℕ)) ∧
       (chartPoint 2025 dFull 3).highRange = some (pr.high * (85 / 100 : ℚ) ^ (3 : ℕ)))) :=
  ⟨by decide, chartPoint_spec 2025 dFull 3 (by decide)⟩

/-- C2 counterexample: on the catalog response of the spec example the code
yields the single name Corolla LE, because the make name is stripped once
rather than repeatedly, so the claimed output LE is wrong. -/
theorem processModels_example_cex :
    (processModels "Corolla" corollaResults).map (fun m => m.name) ≠ ["LE"] ∧
    (processModels "Corolla" corollaResults).map (fun m => m.name) = ["Corolla LE"] := by
  decide

/-- C2 amended: the example response normalizes to the single name
Corolla LE (one leading make-name occurrence stripped, the empty name
filtered out); in general every surviving name is nonempty and the output is
sorted by name. -/
theorem processModels_spec :
    (processModels "Corolla" corollaResults).map (fun m => m.name) = ["Corolla LE"] ∧
    (∀ make : String, ∀ rs : List RawModel, ∀ m ∈ processModels make rs, m.name ≠ "") ∧
    (∀ make : String, ∀ rs : List RawModel,
      (processModels make rs).Pairwise (fun a b : CarModel => a.name ≤ b.name)) := by
  refine ⟨by decide, ?_, ?_⟩
  · intro make rs m hm
    rw [processModels, List.mem_insertionSort] at hm
    have := List.of_mem_filter hm
    simpa using this
  · intro make rs
    exact List.sorted_insertionSort _ _

/-- C2 witness: the general clauses of the amended statement evaluated on the
concrete example. -/
theorem processModels_witness :
    ({ id := 1, name := "Corolla LE", make_id := 10 } : CarModel).name ≠ "" ∧
    (processModels "Corolla" corollaResults).Pairwise
      (fun a b : CarModel => a.name ≤ b.name) :=
  ⟨processModels_spec.2.1 "Corolla" corollaResults
      { id := 1, name := "Corolla LE", make_id := 10 } (by decide),
   processModels_spec.2.2 "Corolla" corollaResults⟩

/-- C7: when the price range is absent the chart still has all ten points,
every point has absent low and high range values, and the range lines are
not rendered; the projection never dereferences the missing range. -/
theorem noPriceRange_spec (currentYear : ℤ) (d : PredictionData)
    (h : d.price_range = none) :
    (chartData currentYear d).length = 10 ∧
    (∀ p ∈ chartData currentYear d, p.lowRange = none ∧ p.highRange = none) ∧
    rangeLinesShown d = false := by
  refine ⟨by simp [chartData], ?_, by simp [rangeLinesShown, h]⟩
  intro p hp
  simp only [chartData, List.mem_map, List.mem_range] at hp
  obtain ⟨k, hk, rfl⟩ := hp
  simp [chartPoint, h]

/-- C7 witness: the statement evaluated on a payload without price range. -/
theorem noPriceRange_witness :
    dMeanZero.price_range = none ∧
    ((chartData 2025 dMeanZero).length = 10 ∧
     (∀ p ∈ chartData 2025 dMeanZero, p.lowRange = none ∧ p.highRange = none) ∧
     rangeLinesShown dMeanZero = false) :=
  ⟨rfl, noPriceRange_spec 2025 dMeanZero rfl⟩

/-- C8: for a strictly positive predicted value the ten projected predicted
values are strictly decreasing and all strictly positive, hence nonzero. -/
theorem predictedSeries_pos_strictAnti (currentYear : ℤ) (d : PredictionData)
    (h : 0 < d.predicted_value) :
    ((chartData currentYear d).map (fun p => p.predictedValue)).Pairwise (· > ·) ∧
    (∀ x ∈ (chartData currentYear d).map (fun p => p.predictedValue),
      0 < x ∧ x ≠ 0) := by
  constructor
  · rw [chartData, List.map_map, List.pairwise_map]
    refine List.Pairwise.imp ?_ (List.pairwise_lt_range 10)
    intro a b hab
    show d.predicted_value * (85 / 100 : ℚ) ^ b
      < d.predicted_value * (85 / 100 : ℚ) ^ a
    exact mul_lt_mul_of_pos_left
      (pow_lt_pow_right_of_lt_one₀ (by norm_num) (by norm_num) hab) h
  · intro x hx
    rw [chartData, List.map_map] at hx
    simp only [List.mem_map, List.mem_range, Function.comp] at hx
    obtain ⟨k, hk, rfl⟩ := hx
    have hpos : 0 < d.predicted_value * (85 / 100 : ℚ) ^ k :=
      mul_pos h (pow_pos (by norm_num) k)
    exact ⟨hpos, ne_of_gt hpos⟩

/-- C8 witness: the statement evaluated on the fully populated payload. -/
theorem predictedSeries_witness :
    (0 : ℚ) < dFull.predicted_value ∧
    (((chartData 2025 dFull).map (fun p => p.predictedValue)).Pairwise (· > ·) ∧
     (∀ x ∈ (chartData 2025 dFull).map (fun p => p.predictedValue),
       0 < x ∧ x ≠ 0)) :=
  ⟨by decide, predictedSeries_pos_strictAnti 2025 dFull (by decide)⟩

/-- C9: a present mean equal to zero is treated exactly as an absent mean:
the chart data coincides with the chart data of the payload with the mean
removed, every point carries an absent mean, and the mean line is not
rendered; likewise a zero predicted value yields an all-zero predicted
series. -/
theorem meanZero_treatedAsAbsent (currentYear : ℤ) (d : PredictionData) :
    (d.mean_value = some 0 →
      chartData currentYear d = chartData currentYear { d with mean_value := none } ∧
      (∀ p ∈ chartData currentYear d, p.meanValue = none) ∧
      meanLineShown d = false) ∧
    (d.predicted_value = 0 →
      ∀ p ∈ chartData currentYear d, p.predictedValue = 0) := by
  constructor
  · intro hm
    refine ⟨?_, ?_, ?_⟩
    · simp only [chartData]
      apply List.map_congr_left
      intro k _
      simp [chartPoint, hm]
    · intro p hp
      simp only [chartData, List.mem_map, List.mem_range] at hp
      obtain ⟨k, hk, rfl⟩ := hp
      simp [chartPoint, hm]
    · simp [meanLineShown, hm]
  · intro hz p hmem
    simp only [chartData, List.mem_map, List.mem_range] at hmem
    obtain ⟨k, hk, rfl⟩ := hmem
    simp [chartPoint, hz]

/-- C9 witness: the first clause evaluated on the zero-mean payload and the
second on the zero-predicted-value payload. -/
theorem meanZero_witness :
    (chartData 2025 dMeanZero
       = chartData 2025 { dMeanZero with mean_value := none } ∧
     (∀ p ∈ chartData 2025 dMeanZero, p.meanValue = none) ∧
     meanLineShown dMeanZero = false) ∧
    (∀ p ∈ chartData 2025 dZeroPv, p.predictedValue = 0) :=
  ⟨(meanZero_treatedAsAbsent 2025 dMeanZero).1 rfl,
   (meanZero_treatedAsAbsent 2025 dZeroPv).2 rfl⟩

/-- C10: when the factors object is absent the breakdown falls back to base
value 0 and all multipliers 1, so every percentage delta is zero. -/
theorem factorsAbsent_defaults (d : PredictionData) (h : d.factors = none) :
    factorsOf d = { base_value := 0, trim_multiplier := 1,
                    condition_multiplier := 1, mileage_multiplier := 1 } ∧
    (factorsOf d).base_value = 0 ∧
    percentDelta (factorsOf d).trim_multiplier = 0 ∧
    percentDelta (factorsOf d).condition_multiplier = 0 ∧
    percentDelta (factorsOf d).mileage_multiplier = 0 := by
  simp [factorsOf, h, percentDelta]

/-- C10 witness: the statement evaluated on a payload without factors. -/
theorem factorsAbsent_witness :
    dMeanZero.factors = none ∧
    (factorsOf dMeanZero = { base_value := 0, trim_multiplier := 1,
                             condition_multiplier := 1, mileage_multiplier := 1 } ∧
     (factorsOf dMeanZero).base_value = 0 ∧
     percentDelta (factorsOf dMeanZero).trim_multiplier = 0 ∧
     percentDelta (factorsOf dMeanZero).condition_multiplier = 0 ∧
     percentDelta (factorsOf dMeanZero).mileage_multiplier = 0) :=
  ⟨rfl, factorsAbsent_defaults dMeanZero rfl⟩
